import Mathlib

/-!
Shallow embedding of src/app/src/main/jni/native-camera2-jni.cpp.

The file holds seven process-wide static handle slots (lines 29-35):
theNativeWindow, cameraDevice, captureRequest, cameraOutputTarget,
sessionOutput, captureSessionOutputContainer, captureSession.
Handles are modelled as allocation identifiers (Nat), a slot as Option Nat
(none is the NULL pointer).  Platform calls are modelled by an environment
record of outcome flags; every native call the code makes is recorded as an
event in a trace, so ordering and null-argument properties can be stated.

Platform modelling assumptions (NDK semantics of the called functions):
ANativeWindow_fromSurface on the managed-runtime surface yields a fresh
non-null window; ACameraOutputTarget_create and ACaptureSessionOutput_create
succeed exactly when the window argument is non-null;
ACaptureSessionOutputContainer_create always succeeds;
ACameraDevice_createCaptureSession and ACameraDevice_createCaptureRequest
fail without touching their out-parameter when the device is NULL; a failed
ACameraManager_openCamera leaves its out-parameter untouched.
-/

namespace NativeCamera2

/-- The seven static handle slots of native-camera2-jni.cpp lines 29-35. -/
inductive Slot where
  | window
  | device
  | request
  | outputTarget
  | sessionOutput
  | container
  | session
  deriving DecidableEq, Repr

/-- One observable native call made by the bridge: a log line, a platform
call with the (possibly NULL) handle arguments it received, or the release
of a handle from a slot. -/
inductive Event where
  | logI (msg : String)
  | logE (msg : String)
  | createManager
  | getCameraIdList (ok : Bool)
  | getCharacteristics (cameraId : String) (ok : Bool)
  | openDevice (cameraId : String) (ok : Bool)
  | createCaptureRequestCall (device : Option Nat) (templateId : Nat) (ok : Bool)
  | freeMetadata
  | deleteCameraIdList
  | deleteManager
  | fromSurface
  | createOutputTargetCall (window : Option Nat)
  | addTarget (request target : Option Nat)
  | createSessionOutputCall (window : Option Nat)
  | createContainer
  | containerAdd (container output : Option Nat)
  | createCaptureSessionCall (device container : Option Nat)
  | setRepeatingRequest (session : Option Nat) (numRequests : Nat) (request : Option Nat)
  | release (slot : Slot) (handle : Nat)
  deriving DecidableEq, Repr

/-- The static handle slots (lines 29-35) plus a fresh-allocation counter. -/
structure CamState where
  theNativeWindow : Option Nat
  cameraDevice : Option Nat
  captureRequest : Option Nat
  cameraOutputTarget : Option Nat
  sessionOutput : Option Nat
  captureSessionOutputContainer : Option Nat
  captureSession : Option Nat
  nextId : Nat
  deriving DecidableEq, Repr

/-- Initial state: every static slot is NULL (C zero-initialization). -/
def initState : CamState :=
  { theNativeWindow := none
    cameraDevice := none
    captureRequest := none
    cameraOutputTarget := none
    sessionOutput := none
    captureSessionOutputContainer := none
    captureSession := none
    nextId := 0 }

/-- Outcomes of the platform calls whose status the code inspects. -/
structure Env where
  getCameraIdListOk : Bool
  cameraIds : List String
  getCharacteristicsOk : Bool
  openCameraOk : Bool
  createCaptureRequestOk : Bool
  closeDeviceOk : Bool
  deriving DecidableEq, Repr

/-- NDK capture template TEMPLATE_PREVIEW, the template id startPreview
passes to openCamera (line 179). -/
def TEMPLATE_PREVIEW : Nat := 1

/-- Model of openCamera (lines 69-129).  Creates a manager, enumerates the
camera id list (early return on failure or on an empty list), selects the
first id, queries its characteristics, opens the device into the
cameraDevice slot, derives a capture request into the captureRequest slot,
then frees the metadata, the id list and the manager.  Every failure only
logs; after a failed open the code still calls
ACameraDevice_createCaptureRequest on the (NULL) device. -/
def openCamera (env : Env) (templateId : Nat) (s : CamState) : CamState × List Event :=
  if env.getCameraIdListOk = false then
    (s, [Event.createManager, Event.getCameraIdList false,
         Event.logE "Failed to get camera id list"])
  else if env.cameraIds.length < 1 then
    (s, [Event.createManager, Event.getCameraIdList true,
         Event.logE "No camera device detected."])
  else
    let selectedCameraId := env.cameraIds.headI
    let metaEvents :=
      [Event.getCharacteristics selectedCameraId env.getCharacteristicsOk] ++
        (if env.getCharacteristicsOk then []
         else [Event.logE "Failed to get camera meta data"])
    let openResult :
        CamState × List Event :=
      if env.openCameraOk then
        ({ s with cameraDevice := some s.nextId, nextId := s.nextId + 1 },
         [Event.openDevice selectedCameraId true])
      else
        (s, [Event.openDevice selectedCameraId false,
             Event.logE "Failed to open camera device"])
    let s1 := openResult.1
    let requestResult :
        CamState × List Event :=
      if s1.cameraDevice.isSome && env.createCaptureRequestOk then
        ({ s1 with captureRequest := some s1.nextId, nextId := s1.nextId + 1 },
         [Event.createCaptureRequestCall s1.cameraDevice templateId true])
      else
        (s1, [Event.createCaptureRequestCall s1.cameraDevice templateId false,
              Event.logE "Failed to create preview capture request"])
    (requestResult.1,
     [Event.createManager, Event.getCameraIdList true,
      Event.logI "Trying to open Camera2"] ++
       metaEvents ++ openResult.2 ++ requestResult.2 ++
       [Event.freeMetadata, Event.deleteCameraIdList, Event.deleteManager])

/-- Lines 135-139: if (captureRequest != NULL) free it and null the slot. -/
def freeRequestStep (s : CamState) : CamState × List Event :=
  match s.captureRequest with
  | some h => ({ s with captureRequest := none }, [Event.release Slot.request h])
  | none => (s, [])

/-- Lines 141-145: if (cameraOutputTarget != NULL) free it and null the slot. -/
def freeTargetStep (s : CamState) : CamState × List Event :=
  match s.cameraOutputTarget with
  | some h => ({ s with cameraOutputTarget := none }, [Event.release Slot.outputTarget h])
  | none => (s, [])

/-- Lines 147-156: if (cameraDevice != NULL) close it (logging on a failed
close status) and null the slot. -/
def closeDeviceStep (closeOk : Bool) (s : CamState) : CamState × List Event :=
  match s.cameraDevice with
  | some h =>
      ({ s with cameraDevice := none },
       [Event.release Slot.device h] ++
         (if closeOk then [] else [Event.logE "Failed to close CameraDevice."]))
  | none => (s, [])

/-- Lines 158-162: if (sessionOutput != NULL) free it and null the slot. -/
def freeSessionOutputStep (s : CamState) : CamState × List Event :=
  match s.sessionOutput with
  | some h => ({ s with sessionOutput := none }, [Event.release Slot.sessionOutput h])
  | none => (s, [])

/-- Lines 164-168: if (captureSessionOutputContainer != NULL) free it and
null the slot. -/
def freeContainerStep (s : CamState) : CamState × List Event :=
  match s.captureSessionOutputContainer with
  | some h =>
      ({ s with captureSessionOutputContainer := none },
       [Event.release Slot.container h])
  | none => (s, [])

/-- Model of closeCamera (lines 131-171): the five guarded release blocks in
source order, then the final log line. -/
def closeCamera (env : Env) (s : CamState) : CamState × List Event :=
  let r1 := freeRequestStep s
  let r2 := freeTargetStep r1.1
  let r3 := closeDeviceStep env.closeDeviceOk r2.1
  let r4 := freeSessionOutputStep r3.1
  let r5 := freeContainerStep r4.1
  (r5.1, r1.2 ++ r2.2 ++ r3.2 ++ r4.2 ++ r5.2 ++ [Event.logI "Close Camera"])

/-- Lines 212-216: if (theNativeWindow != NULL) release it and null the slot. -/
def releaseWindowStep (s : CamState) : CamState × List Event :=
  match s.theNativeWindow with
  | some h => ({ s with theNativeWindow := none }, [Event.release Slot.window h])
  | none => (s, [])

/-- Model of Java_org_freedesktop_nativecamera2_NativeCamera2_stopPreview
(lines 208-217): closeCamera, then the guarded release of theNativeWindow. -/
def stopPreview (env : Env) (s : CamState) : CamState × List Event :=
  let r1 := closeCamera env s
  let r2 := releaseWindowStep r1.1
  (r2.1, r1.2 ++ r2.2)

/-- Model of Java_org_freedesktop_nativecamera2_NativeCamera2_startPreview
(lines 173-206).  Unconditionally overwrites theNativeWindow with the window
obtained from the surface, runs openCamera with TEMPLATE_PREVIEW, then with
no null guard of its own creates the output target, adds it to the capture
request, creates the session output and container, adds the output to the
container, creates the capture session on the device, and submits the
capture request as a repeating request with numRequests = 1. -/
def startPreview (env : Env) (s : CamState) : CamState × List Event :=
  let s0 := { s with theNativeWindow := some s.nextId, nextId := s.nextId + 1 }
  let openResult := openCamera env TEMPLATE_PREVIEW s0
  let s1 := openResult.1
  let targetResult :
      CamState × List Event :=
    match s1.theNativeWindow with
    | some _ =>
        ({ s1 with cameraOutputTarget := some s1.nextId, nextId := s1.nextId + 1 },
         [Event.createOutputTargetCall s1.theNativeWindow])
    | none => (s1, [Event.createOutputTargetCall none])
  let s2 := targetResult.1
  let addTargetEvents := [Event.addTarget s2.captureRequest s2.cameraOutputTarget]
  let outputResult :
      CamState × List Event :=
    match s2.theNativeWindow with
    | some _ =>
        ({ s2 with sessionOutput := some s2.nextId, nextId := s2.nextId + 1 },
         [Event.createSessionOutputCall s2.theNativeWindow])
    | none => (s2, [Event.createSessionOutputCall none])
  let s3 := outputResult.1
  let s4 := { s3 with captureSessionOutputContainer := some s3.nextId,
                      nextId := s3.nextId + 1 }
  let containerEvents :=
    [Event.createContainer,
     Event.containerAdd s4.captureSessionOutputContainer s4.sessionOutput]
  let sessionResult :
      CamState × List Event :=
    match s4.cameraDevice with
    | some _ =>
        ({ s4 with captureSession := some s4.nextId, nextId := s4.nextId + 1 },
         [Event.createCaptureSessionCall s4.cameraDevice s4.captureSessionOutputContainer])
    | none =>
        (s4, [Event.createCaptureSessionCall none s4.captureSessionOutputContainer])
  let s5 := sessionResult.1
  let repeatEvents := [Event.setRepeatingRequest s5.captureSession 1 s5.captureRequest]
  (s5, [Event.fromSurface] ++ openResult.2 ++ [Event.logI "Surface is prepared"] ++
        targetResult.2 ++ addTargetEvents ++ outputResult.2 ++ containerEvents ++
        sessionResult.2 ++ repeatEvents)

/-- The slots released by a trace, in order of release. -/
def releasedSlots (trace : List Event) : List Slot :=
  trace.filterMap fun e =>
    match e with
    | Event.release sl _ => some sl
    | _ => none

/-- Read a slot of the state. -/
def slotGet (s : CamState) : Slot → Option Nat
  | Slot.window => s.theNativeWindow
  | Slot.device => s.cameraDevice
  | Slot.request => s.captureRequest
  | Slot.outputTarget => s.cameraOutputTarget
  | Slot.sessionOutput => s.sessionOutput
  | Slot.container => s.captureSessionOutputContainer
  | Slot.session => s.captureSession

/-- Write a slot of the state. -/
def slotSet (s : CamState) (sl : Slot) (v : Option Nat) : CamState :=
  match sl with
  | Slot.window => { s with theNativeWindow := v }
  | Slot.device => { s with cameraDevice := v }
  | Slot.request => { s with captureRequest := v }
  | Slot.outputTarget => { s with cameraOutputTarget := v }
  | Slot.sessionOutput => { s with sessionOutput := v }
  | Slot.container => { s with captureSessionOutputContainer := v }
  | Slot.session => { s with captureSession := v }

/-- Checks that every release event in the trace frees exactly the handle
currently held by its slot (so never a NULL or already-freed slot), nulling
the slot as it goes. -/
def safeReleases (s : CamState) : List Event → Bool
  | [] => true
  | Event.release sl h :: rest =>
      match slotGet s sl with
      | some h0 => (h0 == h) && safeReleases (slotSet s sl none) rest
      | none => false
  | _ :: rest => safeReleases s rest

/-- Environment in which every platform call succeeds and one camera with
id "0" is enumerated. -/
def envAllOk : Env :=
  { getCameraIdListOk := true
    cameraIds := ["0"]
    getCharacteristicsOk := true
    openCameraOk := true
    createCaptureRequestOk := true
    closeDeviceOk := true }

/-- Environment in which enumeration succeeds but returns zero cameras. -/
def envZeroCameras : Env := { envAllOk with cameraIds := [] }

/-- Environment in which ACameraManager_openCamera fails. -/
def envOpenFail : Env := { envAllOk with openCameraOk := false }

/-- Recognizes ACameraManager_getCameraIdList call events. -/
def isEnumerateCall : Event → Bool
  | Event.getCameraIdList _ => true
  | _ => false

/-- Recognizes ACameraManager_getCameraCharacteristics call events. -/
def isCharacteristicsCall : Event → Bool
  | Event.getCharacteristics _ _ => true
  | _ => false

/-- Recognizes ACameraManager_openCamera call events. -/
def isOpenDeviceCall : Event → Bool
  | Event.openDevice _ _ => true
  | _ => false

/-- Recognizes ACameraDevice_createCaptureRequest call events. -/
def isCreateRequestCall : Event → Bool
  | Event.createCaptureRequestCall _ _ _ => true
  | _ => false

/-- Recognizes ACaptureSessionOutputContainer_add call events. -/
def isContainerAddCall : Event → Bool
  | Event.containerAdd _ _ => true
  | _ => false

/-- Recognizes ACameraCaptureSession_setRepeatingRequest call events. -/
def isRepeatingCall : Event → Bool
  | Event.setRepeatingRequest _ _ _ => true
  | _ => false

/-- Helper: stopPreview nulls the six slots closeCamera and the window
block guard, leaving captureSession and the counter untouched. -/
theorem stopPreview_state (env : Env) (s : CamState) :
    (stopPreview env s).1 =
      { s with theNativeWindow := none, cameraDevice := none, captureRequest := none,
               cameraOutputTarget := none, sessionOutput := none,
               captureSessionOutputContainer := none } := by
  obtain ⟨w, d, r, t, o, c, ses, n⟩ := s
  cases w <;> cases d <;> cases r <;> cases t <;> cases o <;> cases c <;>
    simp [stopPreview, closeCamera, freeRequestStep, freeTargetStep, closeDeviceStep,
          freeSessionOutputStep, freeContainerStep, releaseWindowStep]

/-- Helper: the slots released by stopPreview always form a subsequence of
the fixed dependency order request, outputTarget, device, sessionOutput,
container, window. -/
theorem stopPreview_release_order (env : Env) (s : CamState) :
    List.Sublist (releasedSlots (stopPreview env s).2)
      [Slot.request, Slot.outputTarget, Slot.device, Slot.sessionOutput,
       Slot.container, Slot.window] := by
  obtain ⟨g, ids, gc, oc, cr, cd⟩ := env
  obtain ⟨w, d, r, t, o, c, ses, n⟩ := s
  cases w <;> cases d <;> cases r <;> cases t <;> cases o <;> cases c <;> cases cd <;>
    simp [stopPreview, closeCamera, freeRequestStep, freeTargetStep, closeDeviceStep,
          freeSessionOutputStep, freeContainerStep, releaseWindowStep, releasedSlots] <;>
    decide

/-- Helper: every release stopPreview performs hits a slot that currently
holds exactly the handle being released. -/
theorem stopPreview_safe (env : Env) (s : CamState) :
    safeReleases s (stopPreview env s).2 = true := by
  obtain ⟨g, ids, gc, oc, cr, cd⟩ := env
  obtain ⟨w, d, r, t, o, c, ses, n⟩ := s
  cases w <;> cases d <;> cases r <;> cases t <;> cases o <;> cases c <;> cases cd <;>
    simp [stopPreview, closeCamera, freeRequestStep, freeTargetStep, closeDeviceStep,
          freeSessionOutputStep, freeContainerStep, releaseWindowStep, safeReleases,
          slotGet, slotSet]

/-- Helper: startPreview never emits a release event, and unconditionally
overwrites the display surface slot with the freshly obtained window. -/
theorem startPreview_effects (env : Env) (s : CamState) :
    releasedSlots (startPreview env s).2 = [] ∧
    (startPreview env s).1.theNativeWindow = some s.nextId := by
  obtain ⟨g, ids, gc, oc, cr, cd⟩ := env
  obtain ⟨w, d, r, t, o, c, ses, n⟩ := s
  cases g <;> cases ids <;> cases gc <;> cases oc <;> cases cr <;> cases d <;>
    simp [startPreview, openCamera, releasedSlots, TEMPLATE_PREVIEW]

/-- Claim C1 counterexample: after a fully successful startPreview followed
by stopPreview, the captureSession slot still holds its handle, so it is
false that every static handle slot is in its empty state after stop. -/
theorem c1_counterexample :
    (startPreview envAllOk initState).1.captureSession = some 6 ∧
    (stopPreview envAllOk (startPreview envAllOk initState).1).1.captureSession = some 6 := by
  decide

/-- Claim C1 (amended): after stopPreview returns, the display surface,
device, capture request, output target, session output and output container
slots are all null regardless of how far a preceding start progressed, but
the captureSession slot is left unchanged rather than nulled. -/
theorem c1_stop_clears_all_but_session (env : Env) (s : CamState) :
    (stopPreview env s).1.theNativeWindow = none ∧
    (stopPreview env s).1.cameraDevice = none ∧
    (stopPreview env s).1.captureRequest = none ∧
    (stopPreview env s).1.cameraOutputTarget = none ∧
    (stopPreview env s).1.sessionOutput = none ∧
    (stopPreview env s).1.captureSessionOutputContainer = none ∧
    (stopPreview env s).1.captureSession = s.captureSession := by
  rw [stopPreview_state]
  simp

/-- Claim C2: in every teardown run the released slots appear in dependency
order: capture request before output target before device close, and
session output and output container only after the device is closed, with
the display surface last of all. -/
theorem c2_release_order (env : Env) (s : CamState) :
    List.Sublist (releasedSlots (stopPreview env s).2)
      [Slot.request, Slot.outputTarget, Slot.device, Slot.sessionOutput,
       Slot.container, Slot.window] :=
  stopPreview_release_order env s

/-- Claim C3: from any state, stopPreview only ever releases a slot that is
currently non-null and holds exactly the handle being freed, nulling the
slot as it goes; so stop is safe from the initial state, after a partially
failed start, and after any earlier stop. -/
theorem c3_stop_never_releases_null (env : Env) (s : CamState) :
    safeReleases s (stopPreview env s).2 = true :=
  stopPreview_safe env s

/-- Claim C4: stopPreview is idempotent: running it twice in a row yields
the same state as running it once, and the second run performs no release
operation at all. -/
theorem c4_stop_idempotent (env1 env2 : Env) (s : CamState) :
    (stopPreview env2 (stopPreview env1 s).1).1 = (stopPreview env1 s).1 ∧
    releasedSlots (stopPreview env2 (stopPreview env1 s).1).2 = [] := by
  rw [stopPreview_state env1 s]
  constructor
  · rw [stopPreview_state]
  · simp [stopPreview, closeCamera, freeRequestStep, freeTargetStep, closeDeviceStep,
          freeSessionOutputStep, freeContainerStep, releaseWindowStep, releasedSlots]

/-- Claim C5 counterexample: after a start in which enumeration returned
zero cameras, the device slot is indeed null, but the subsequent stop is
not a no-op: it changes the state and performs release operations, because
start still created the window, output target, session output and
container. -/
theorem c5_counterexample :
    (startPreview envZeroCameras initState).1.cameraDevice = none ∧
    releasedSlots (stopPreview envZeroCameras (startPreview envZeroCameras initState).1).2 ≠ [] ∧
    (stopPreview envZeroCameras (startPreview envZeroCameras initState).1).1 ≠
      (startPreview envZeroCameras initState).1 := by
  decide

/-- Claim C5 (amended): when enumeration returns zero cameras, start logs
and returns without creating a device handle or capture request, but still
creates the window, output target, session output and container; the
subsequent stop is not a no-op: it releases exactly those four handles in
order, never touches a null slot (so it does not crash), and leaves every
slot null. -/
theorem c5_zero_cameras (env : Env) (h1 : env.getCameraIdListOk = true)
    (h2 : env.cameraIds = []) :
    (startPreview env initState).1.cameraDevice = none ∧
    (startPreview env initState).1.captureRequest = none ∧
    Event.logE "No camera device detected." ∈ (startPreview env initState).2 ∧
    releasedSlots (stopPreview env (startPreview env initState).1).2 =
      [Slot.outputTarget, Slot.sessionOutput, Slot.container, Slot.window] ∧
    safeReleases (startPreview env initState).1
      (stopPreview env (startPreview env initState).1).2 = true ∧
    (stopPreview env (startPreview env initState).1).1 =
      { initState with nextId := 4 } := by
  obtain ⟨g, ids, gc, oc, cr, cd⟩ := env
  cases g <;> cases ids <;>
    simp_all [startPreview, openCamera, stopPreview, closeCamera, freeRequestStep,
      freeTargetStep, closeDeviceStep, freeSessionOutputStep, freeContainerStep,
      releaseWindowStep, releasedSlots, safeReleases, slotGet, slotSet,
      initState, TEMPLATE_PREVIEW]

/-- Claim C5 witness: the amended statement instantiated at the concrete
zero-camera environment. -/
theorem c5_witness :
    (startPreview envZeroCameras initState).1.cameraDevice = none ∧
    releasedSlots (stopPreview envZeroCameras (startPreview envZeroCameras initState).1).2 =
      [Slot.outputTarget, Slot.sessionOutput, Slot.container, Slot.window] := by
  have h := c5_zero_cameras envZeroCameras rfl rfl
  exact ⟨h.1, h.2.2.2.1⟩

/-- Claim C6 counterexample: a second startPreview without an intervening
stop overwrites the non-null window slot (handle 0 becomes handle 7) while
emitting no release event at all, so the first window handle leaks. -/
theorem c6_counterexample :
    (startPreview envAllOk initState).1.theNativeWindow = some 0 ∧
    releasedSlots (startPreview envAllOk (startPreview envAllOk initState).1).2 = [] ∧
    (startPreview envAllOk (startPreview envAllOk initState).1).1.theNativeWindow = some 7 := by
  decide

/-- Claim C6 (amended): startPreview performs no release operation
whatsoever and unconditionally overwrites the display surface slot with a
fresh window handle; hence a second start without an intervening stop
overwrites non-null slots without first releasing the handles they hold,
leaking the first session. -/
theorem c6_start_never_releases (env : Env) (s : CamState) :
    releasedSlots (startPreview env s).2 = [] ∧
    (startPreview env s).1.theNativeWindow = some s.nextId :=
  startPreview_effects env s

/-- Claim C7: every failure outcome of a platform call during opening is
handled by logging only: the two enumeration failures return early with the
state unchanged, a characteristics or open failure logs and execution
continues to the capture request creation (using whatever device handle
exists, even the NULL one), and no platform call is ever retried (each call
kind occurs at most once per run). -/
theorem c7_failures_log_only (env : Env) (templateId : Nat) (s : CamState) :
    (env.getCameraIdListOk = false →
      (openCamera env templateId s).1 = s ∧
      Event.logE "Failed to get camera id list" ∈ (openCamera env templateId s).2) ∧
    (env.getCameraIdListOk = true → env.cameraIds = [] →
      (openCamera env templateId s).1 = s ∧
      Event.logE "No camera device detected." ∈ (openCamera env templateId s).2) ∧
    (env.getCameraIdListOk = true → env.cameraIds ≠ [] → env.getCharacteristicsOk = false →
      Event.logE "Failed to get camera meta data" ∈ (openCamera env templateId s).2 ∧
      ((openCamera env templateId s).2.filter isCreateRequestCall).length = 1) ∧
    (env.getCameraIdListOk = true → env.cameraIds ≠ [] → env.openCameraOk = false →
      Event.logE "Failed to open camera device" ∈ (openCamera env templateId s).2 ∧
      ∃ ok, Event.createCaptureRequestCall s.cameraDevice templateId ok ∈
        (openCamera env templateId s).2) ∧
    ((openCamera env templateId s).2.filter isEnumerateCall).length ≤ 1 ∧
    ((openCamera env templateId s).2.filter isCharacteristicsCall).length ≤ 1 ∧
    ((openCamera env templateId s).2.filter isOpenDeviceCall).length ≤ 1 ∧
    ((openCamera env templateId s).2.filter isCreateRequestCall).length ≤ 1 := by
  obtain ⟨g, ids, gc, oc, cr, cd⟩ := env
  obtain ⟨w, d, r, t, o, c, ses, n⟩ := s
  cases g <;> cases ids <;> cases gc <;> cases oc <;> cases cr <;> cases d <;>
    simp [openCamera, isEnumerateCall, isCharacteristicsCall, isOpenDeviceCall,
          isCreateRequestCall]

/-- Claim C7 witness: with a failing ACameraManager_openCamera the opener
logs the failure and still issues the capture request creation call on the
NULL device. -/
theorem c7_witness :
    Event.logE "Failed to open camera device" ∈ (openCamera envOpenFail 1 initState).2 ∧
    ∃ ok, Event.createCaptureRequestCall none 1 ok ∈ (openCamera envOpenFail 1 initState).2 := by
  have h := c7_failures_log_only envOpenFail 1 initState
  have h4 := h.2.2.2.1 rfl (by decide) rfl
  exact ⟨h4.1, h4.2⟩

/-- Claim C8: when enumeration succeeds with at least one camera and the
platform calls succeed, start queries the characteristics of the first
enumerated id, opens that device, derives the capture request from
TEMPLATE_PREVIEW on it, creates the session output from the display
surface, adds exactly one output to the session container, and submits the
capture request as a repeating capture with numRequests equal to one. -/
theorem c8_success_path (env : Env) (s : CamState)
    (h1 : env.getCameraIdListOk = true) (h2 : env.cameraIds ≠ [])
    (h3 : env.getCharacteristicsOk = true) (h4 : env.openCameraOk = true)
    (h5 : env.createCaptureRequestOk = true) :
    Event.getCharacteristics env.cameraIds.headI true ∈ (startPreview env s).2 ∧
    Event.openDevice env.cameraIds.headI true ∈ (startPreview env s).2 ∧
    (startPreview env s).1.cameraDevice = some (s.nextId + 1) ∧
    Event.createCaptureRequestCall (some (s.nextId + 1)) TEMPLATE_PREVIEW true ∈
      (startPreview env s).2 ∧
    Event.createSessionOutputCall ((startPreview env s).1.theNativeWindow) ∈
      (startPreview env s).2 ∧
    ((startPreview env s).2.filter isContainerAddCall) =
      [Event.containerAdd (startPreview env s).1.captureSessionOutputContainer
         (startPreview env s).1.sessionOutput] ∧
    ((startPreview env s).2.filter isRepeatingCall) =
      [Event.setRepeatingRequest (startPreview env s).1.captureSession 1
         (startPreview env s).1.captureRequest] ∧
    (startPreview env s).1.captureSession = some (s.nextId + 6) := by
  obtain ⟨g, ids, gc, oc, cr, cd⟩ := env
  obtain ⟨w, d, r, t, o, c, ses, n⟩ := s
  cases g <;> cases ids <;> cases gc <;> cases oc <;> cases cr <;>
    simp_all [startPreview, openCamera, TEMPLATE_PREVIEW, isContainerAddCall,
      isRepeatingCall]

/-- Claim C8 witness: the success path instantiated at the all-success
single-camera environment and the initial state. -/
theorem c8_witness :
    Event.getCharacteristics envAllOk.cameraIds.headI true ∈
      (startPreview envAllOk initState).2 ∧
    (startPreview envAllOk initState).1.captureSession = some 6 := by
  have h := c8_success_path envAllOk initState rfl (by decide) rfl rfl rfl
  exact ⟨h.1, h.2.2.2.2.2.2.2⟩

/-- Claim C10: start uses handles without null-guarding after failure: the
display surface slot is always overwritten, and with zero cameras
enumerated the trace still contains an addTarget call whose capture request
argument is NULL and a createCaptureSession call whose device argument is
NULL; likewise after a failed ACameraManager_openCamera the opener still
issues createCaptureRequest with the NULL device. -/
theorem c10_null_args (env env2 : Env)
    (h1 : env.getCameraIdListOk = true) (h2 : env.cameraIds = [])
    (h3 : env2.getCameraIdListOk = true) (h4 : env2.cameraIds ≠ [])
    (h5 : env2.openCameraOk = false) :
    (∀ e sA, (startPreview e sA).1.theNativeWindow = some sA.nextId) ∧
    (∃ t, Event.addTarget none t ∈ (startPreview env initState).2) ∧
    (∃ c, Event.createCaptureSessionCall none c ∈ (startPreview env initState).2) ∧
    (∃ ok, Event.createCaptureRequestCall none TEMPLATE_PREVIEW ok ∈
      (openCamera env2 TEMPLATE_PREVIEW initState).2) := by
  refine ⟨fun e sA => (startPreview_effects e sA).2, ?_, ?_, ?_⟩
  · obtain ⟨g, ids, gc, oc, cr, cd⟩ := env
    cases g <;> cases ids <;>
      simp_all [startPreview, openCamera, initState, TEMPLATE_PREVIEW]
  · obtain ⟨g, ids, gc, oc, cr, cd⟩ := env
    cases g <;> cases ids <;>
      simp_all [startPreview, openCamera, initState, TEMPLATE_PREVIEW]
  · obtain ⟨g, ids, gc, oc, cr, cd⟩ := env2
    cases g <;> cases ids <;> cases gc <;> cases cr <;>
      simp_all [openCamera, initState, TEMPLATE_PREVIEW]

/-- Claim C10 witness: the null-argument calls at the concrete zero-camera
and failed-open environments. -/
theorem c10_witness :
    (∃ t, Event.addTarget none t ∈ (startPreview envZeroCameras initState).2) ∧
    (∃ ok, Event.createCaptureRequestCall none TEMPLATE_PREVIEW ok ∈
      (openCamera envOpenFail TEMPLATE_PREVIEW initState).2) := by
  have h := c10_null_args envZeroCameras envOpenFail rfl rfl rfl (by decide) rfl
  exact ⟨h.2.1, h.2.2.2⟩

/-- Claim C9: stopPreview leaves the captureSession slot unchanged and
never emits a release for it; teardown releases and nulls only the other
six slots. -/
theorem c9_session_untouched (env : Env) (s : CamState) :
    (stopPreview env s).1.captureSession = s.captureSession ∧
    Slot.session ∉ releasedSlots (stopPreview env s).2 := by
  constructor
  · rw [stopPreview_state]
  · intro hmem
    have hsub := stopPreview_release_order env s
    have := hsub.subset hmem
    simp at this

end NativeCamera2
